import Mathlib

/-!
Verification development for the cyber-ui-toolkit scene-graph rendering library.
Each C++ class that the specification's claims touch is shallowly embedded as a
Lean structure, and each member function as a state-passing Lean function that
follows the source statement by statement.  Node objects reachable through
shared pointers are identified by natural-number ids; a null shared_ptr is
Option.none at a call site.  Float arithmetic is modelled over exact fields
(ℚ or ℝ) where the claims do not depend on rounding.
-/

namespace CyberUI

/-! ## Object2D hierarchy (src/core/Object2D.cpp) -/

/-- State of the Object2D graph: the parent back-pointer and the ordered
children list of every node id. -/
structure Obj2DWorld where
  parent : Nat → Option Nat
  children : Nat → List Nat

/-- Object2D::removeChild (Object2D.cpp lines 21-27): std::find locates the
first occurrence of the child pointer; when found, the found element's parent
back-reference is cleared and the element is erased.  A null child is never
found among the (non-null) stored children, so the call is a no-op. -/
def removeChild (w : Obj2DWorld) (self : Nat) (child : Option Nat) : Obj2DWorld :=
  match child with
  | none => w
  | some c =>
    if c ∈ w.children self then
      { parent := fun n => if n = c then none else w.parent n
        children := fun n => if n = self then (w.children self).erase c else w.children n }
    else w

/-- Object2D::addChild (Object2D.cpp lines 11-19): no-op when the child is null
or its parent is already this node; otherwise detach it from its old parent (if
any), set the back-reference, and append it to this node's children. -/
def addChild (w : Obj2DWorld) (self : Nat) (child : Option Nat) : Obj2DWorld :=
  match child with
  | none => w
  | some c =>
    if w.parent c = some self then w
    else
      let w1 :=
        match w.parent c with
        | some p => removeChild w p (some c)
        | none => w
      { parent := fun n => if n = c then some self else w1.parent n
        children := fun n => if n = self then w1.children n ++ [c] else w1.children n }

/-- Well-formed pointer graph: a node's parent pointer is P exactly when the
node occurs in P's children, and no children list holds duplicates. -/
def WellFormed (w : Obj2DWorld) : Prop :=
  (∀ p c, c ∈ w.children p ↔ w.parent c = some p) ∧ (∀ p, (w.children p).Nodup)

/-! ## Image (src/rendering/Image.cpp) -/

/-- Image::Format (Image.h lines 12-16). -/
inductive ImageFormat where
  | JPEG
  | PNG
  | Unknown
deriving DecidableEq, Repr

/-- Image members (Image.h lines 41-46); pixel bytes as a list of naturals. -/
structure Image where
  filepath : String
  data : List Nat
  width : Int
  height : Int
  channels : Int
  format : ImageFormat
deriving DecidableEq, Repr

/-- The Image() constructor (Image.cpp lines 11-13): zero dimensions, Unknown
format, empty path and pixel buffer. -/
def freshImage : Image :=
  { filepath := "", data := [], width := 0, height := 0, channels := 0
    format := ImageFormat.Unknown }

/-- Image::isLoaded (Image.h line 35): the pixel buffer is non-empty. -/
def isLoaded (img : Image) : Bool := !img.data.isEmpty

/-- Characters after the last dot of a path, Option.none when no dot occurs
(std::string::find_last_of returning npos in Image.cpp lines 21-24). -/
def extAfterLastDot : List Char → Option (List Char)
  | [] => none
  | c :: rest =>
    match extAfterLastDot rest with
    | some e => some e
    | none => if c = '.' then some rest else none

/-- Image::detectFormat (Image.cpp lines 19-36): the extension after the last
dot, lowercased, mapped to a format tag; Unknown otherwise. -/
def detectFormat (filepath : String) : ImageFormat :=
  match extAfterLastDot filepath.toList with
  | none => ImageFormat.Unknown
  | some e =>
    let ext := e.map Char.toLower
    if ext = ['j', 'p', 'g'] ∨ ext = ['j', 'p', 'e', 'g'] then ImageFormat.JPEG
    else if ext = ['p', 'n', 'g'] then ImageFormat.PNG
    else ImageFormat.Unknown

/-- Image::loadFromFile (Image.cpp lines 38-82).  The filesystem is an oracle
from path to file bytes, with Option.none covering both open failure and read
failure.  The source stores the path and the detected format into the members
before any failure check; the placeholder decoder then stores 256x256x4
dimensions and the raw bytes on success. -/
def loadFromFile (img : Image) (fs : String → Option (List Nat)) (filepath : String) :
    Bool × Image :=
  let img1 := { img with filepath := filepath, format := detectFormat filepath }
  if img1.format = ImageFormat.Unknown then (false, img1)
  else
    match fs filepath with
    | none => (false, img1)
    | some bytes =>
      (true, { img1 with width := 256, height := 256, channels := 4, data := bytes })

/-- Image::loadFromData (Image.cpp lines 84-104): reject a null pointer or any
non-positive dimension without touching a member; otherwise store the
dimensions, the PNG tag, and width*height*channels bytes copied from the
caller's buffer. -/
def loadFromData (img : Image) (data : Option (List Nat)) (width height channels : Int) :
    Bool × Image :=
  match data with
  | none => (false, img)
  | some bytes =>
    if width ≤ 0 ∨ height ≤ 0 ∨ channels ≤ 0 then (false, img)
    else
      (true, { img with
                width := width, height := height, channels := channels,
                format := ImageFormat.PNG,
                data := bytes.take (width.toNat * height.toNat * channels.toNat) })

/-! ## Camera (src/core/Camera.cpp) -/

/-- Perspective parameters of a Camera (Camera.h); the scalar type is any
field so that the definition stays executable, with the reals (the float
model) substituted in the theorems. -/
structure CameraPersp (K : Type) where
  fov : K
  aspect : K
  near : K
  far : K

/-- A column-major 4x4 float matrix written entry-by-entry; field eI is the
buffer cell matrix[I] of the source. -/
structure RMat (K : Type) where
  e0 : K
  e1 : K
  e2 : K
  e3 : K
  e4 : K
  e5 : K
  e6 : K
  e7 : K
  e8 : K
  e9 : K
  e10 : K
  e11 : K
  e12 : K
  e13 : K
  e14 : K
  e15 : K

/-- Camera::getProjectionMatrix (Camera.cpp lines 92-117): the standard
perspective projection, written cell by cell as in the source.  The tangent
from math.h is an oracle parameter; the theorems use Real.tan. -/
def getProjectionMatrix {K : Type} [Field K] (tan : K → K) (c : CameraPersp K) : RMat K :=
  let f : K := 1 / tan (c.fov / 2)
  let rangeInv : K := 1 / (c.near - c.far)
  { e0 := f / c.aspect, e1 := 0, e2 := 0, e3 := 0,
    e4 := 0, e5 := f, e6 := 0, e7 := 0,
    e8 := 0, e9 := 0, e10 := (c.near + c.far) * rangeInv, e11 := -1,
    e12 := 0, e13 := 0, e14 := 2 * c.near * c.far * rangeInv, e15 := 0 }

/-! ## Frame3D and SceneRoot containers (src/core/Frame3D.cpp, SceneRoot.cpp) -/

/-- Frame3D members the renderer reads (Frame3D.h lines 57-69): children ids,
visibility, render-target size and the opaque render-target texture pointer
(0 models the null pointer; GL texture names are positive). -/
structure Frame3DNode where
  children : List Nat
  visible : Bool
  renderTargetWidth : Int
  renderTargetHeight : Int
  renderTargetTexture : Nat
deriving DecidableEq, Repr

/-- Frame3D::isOffscreenRenderingEnabled (Frame3D.h line 41): constantly true. -/
def isOffscreenRenderingEnabled (_f : Frame3DNode) : Bool := true

/-- Frame3D::addChild (Frame3D.cpp lines 51-55): append any non-null child,
with no duplicate check, no parent back-reference, and no detach step. -/
def frame3DAddChild (f : Frame3DNode) (child : Option Nat) : Frame3DNode :=
  match child with
  | none => f
  | some c => { f with children := f.children ++ [c] }

/-- SceneRoot::addFrame3D (SceneRoot.cpp lines 10-14): append any non-null
frame to the frames sequence, unconditionally. -/
def sceneRootAddFrame3D (frames : List Nat) (frame : Option Nat) : List Nat :=
  match frame with
  | none => frames
  | some g => frames ++ [g]

/-! ## OpenGLRenderer (src/rendering/OpenGLRenderer.cpp)

The renderer's member state (OpenGLRenderer.h lines 54-83) is embedded with
GPU object names as naturals; glGenTextures is modelled by a fresh-name
counter (GL names are positive, 0 is the null name).  The GL scissor state
set by glScissor is tracked in activeScissor.  Float arithmetic feeding the
scissor computation is modelled exactly over ℚ. -/

/-- OpenGLRenderer::ScissorRect (OpenGLRenderer.h lines 73-75). -/
structure ScissorRect where
  x : Int
  y : Int
  width : Int
  height : Int
deriving DecidableEq, Repr

/-- Renderer member state (OpenGLRenderer.h lines 54-83).  Caches are
association lists keyed by object identity, inserted only on a miss, so
lookup agrees with the std::map of the source. -/
structure OGLState where
  initialized : Bool
  newTexturesCreatedThisFrame : Bool
  textureCache : List (Nat × Nat)
  renderTargetCache : List (Nat × Nat)
  scissorStack : List ScissorRect
  currentRenderTargetWidth : Int
  currentRenderTargetHeight : Int
  activeScissor : ScissorRect
  nextTexName : Nat
deriving DecidableEq, Repr

/-- OpenGLRenderer::beginFrame (OpenGLRenderer.cpp lines 256-300): fail when
not initialized; otherwise reset the per-frame texture flag and the scissor
stack, adopt the framebuffer size as the current render-target size, and set
the scissor to the full viewport.  Clearing and program binding touch no
member. -/
def beginFrame (s : OGLState) (fbWidth fbHeight : Int) : Bool × OGLState :=
  if s.initialized = false then (false, s)
  else
    (true, { s with
              newTexturesCreatedThisFrame := false,
              scissorStack := [],
              currentRenderTargetWidth := fbWidth,
              currentRenderTargetHeight := fbHeight,
              activeScissor := ⟨0, 0, fbWidth, fbHeight⟩ })

/-- OpenGLRenderer::endFrame (OpenGLRenderer.cpp lines 302-310): swap buffers
and, exactly when new textures were created this frame, block on glFinish.
The Bool is that blocking decision; no member is written — in particular no
frame counter exists to be incremented. -/
def endFrame (s : OGLState) : OGLState × Bool :=
  (s, s.newTexturesCreatedThisFrame)

/-- OpenGLRenderer::getOrCreateTexture (OpenGLRenderer.cpp lines 571-603):
return the cached name for this Image identity, or on a miss generate a fresh
name, upload the pixels, cache it and raise the new-texture flag. -/
def getOrCreateTexture (s : OGLState) (image : Nat) : Nat × OGLState :=
  match s.textureCache.lookup image with
  | some t => (t, s)
  | none =>
    let t := s.nextTexName
    (t, { s with
            nextTexName := s.nextTexName + 1,
            textureCache := (image, t) :: s.textureCache,
            newTexturesCreatedThisFrame := true })

/-- OpenGLRenderer::getOrCreateRenderTarget (OpenGLRenderer.cpp lines
605-633): return the cached render-target name for this frame identity, or
generate a fresh one, cache it and write it into the frame's opaque pointer.
(The new-texture flag is NOT raised here, matching the source.)  The null
frame guard is handled by the caller model, which passes the frame by id and
value. -/
def getOrCreateRenderTarget (s : OGLState) (fid : Nat) (f : Frame3DNode) :
    Nat × OGLState × Frame3DNode :=
  match s.renderTargetCache.lookup fid with
  | some t => (t, s, f)
  | none =>
    let t := s.nextTexName
    (t, { s with
            nextTexName := s.nextTexName + 1,
            renderTargetCache := (fid, t) :: s.renderTargetCache },
        { f with renderTargetTexture := t })

/-- GL command-level events a Frame3D render pass can produce. -/
inductive RenderEvent where
  | childrenToTexture (target : Nat)
  | texturedQuad (texture : Nat) (w h : Int)
  | directChildren
deriving DecidableEq, Repr

/-- OpenGLRenderer::renderFrame3DToTexture (OpenGLRenderer.cpp lines 635-708):
fetch or create the render target; bail out on a null target or an incomplete
framebuffer (a GPU response, passed as an oracle); otherwise render the 2D
children into the target — abstracted to one event, the children pass itself
being renderObject2D.  Viewport and current render-target sizes are saved and
restored, so they are unchanged; the final glScissor restores the full
framebuffer rectangle, whose size beginFrame stored as the current
render-target size. -/
def renderFrame3DToTexture (fbComplete : Bool) (s : OGLState) (fid : Nat) (f : Frame3DNode) :
    OGLState × Frame3DNode × List RenderEvent :=
  let r := getOrCreateRenderTarget s fid f
  if r.1 = 0 then (r.2.1, r.2.2, [])
  else if fbComplete = false then (r.2.1, r.2.2, [])
  else
    ({ r.2.1 with
        activeScissor := ⟨0, 0, r.2.1.currentRenderTargetWidth,
                          r.2.1.currentRenderTargetHeight⟩ },
     r.2.2, [RenderEvent.childrenToTexture r.1])

/-- OpenGLRenderer::renderFrame3D (OpenGLRenderer.cpp lines 374-435): skip
null or invisible frames; when off-screen rendering is enabled, render the
children to the frame's target and, if the frame's render-target texture is
non-null, composite it as a textured quad of the frame's render-target size
under the frame's MVP; the else-branch renders the children directly.  The
MVP float math writes no member and is not tracked by the events. -/
def renderFrame3D (fbComplete : Bool) (s : OGLState) (fid : Nat) (f : Frame3DNode) :
    OGLState × Frame3DNode × List RenderEvent :=
  if f.visible = false then (s, f, [])
  else if isOffscreenRenderingEnabled f then
    let r := renderFrame3DToTexture fbComplete s fid f
    let texture := r.2.1.renderTargetTexture
    if texture = 0 then r
    else
      (r.1, r.2.1,
       r.2.2 ++ [RenderEvent.texturedQuad texture r.2.1.renderTargetWidth
                  r.2.1.renderTargetHeight])
  else (s, f, [RenderEvent.directChildren])

/-- Truncation toward zero: the effect of static_cast<int> on a float. -/
def ratTrunc (q : ℚ) : Int := if 0 ≤ q then q.floor else -((-q).floor)

/-- A 4x4 float matrix handed to the renderer as const float*; field mI is
the buffer cell matrix[I] (column-major). -/
structure GLMat where
  m0 : ℚ
  m1 : ℚ
  m2 : ℚ
  m3 : ℚ
  m4 : ℚ
  m5 : ℚ
  m6 : ℚ
  m7 : ℚ
  m8 : ℚ
  m9 : ℚ
  m10 : ℚ
  m11 : ℚ
  m12 : ℚ
  m13 : ℚ
  m14 : ℚ
  m15 : ℚ
deriving DecidableEq, Repr

/-- OpenGLRenderer::transformPointToScreen (OpenGLRenderer.cpp lines
790-803).  Exact rationals stand for floats (division by a zero clip-w yields
0 rather than an IEEE infinity; the clip-stack claims do not depend on the
numeric value of the transformed point). -/
def transformPointToScreen (s : OGLState) (x y : ℚ) (m : GLMat) : ℚ × ℚ :=
  let clipX := m.m0 * x + m.m4 * y + m.m12
  let clipY := m.m1 * x + m.m5 * y + m.m13
  let clipW := m.m3 * x + m.m7 * y + m.m15
  let ndcX := clipX / clipW
  let ndcY := clipY / clipW
  ((ndcX + 1) * (1 / 2) * (s.currentRenderTargetWidth : ℚ),
   (1 - ndcY) * (1 / 2) * (s.currentRenderTargetHeight : ℚ))

/-- OpenGLRenderer::pushScissorRect (OpenGLRenderer.cpp lines 749-774):
transform the region's two opposite corners to screen space, take the
axis-aligned integer rectangle, clamp it to the current render-target bounds,
push it on the stack and make it the active scissor. -/
def pushScissorRect (s : OGLState) (x y width height : ℚ) (m : GLMat) : OGLState :=
  let p1 := transformPointToScreen s x y m
  let p2 := transformPointToScreen s (x + width) (y + height) m
  let scissorX := ratTrunc (min p1.1 p2.1)
  let scissorY := ratTrunc (min p1.2 p2.2)
  let scissorW := ratTrunc |p2.1 - p1.1|
  let scissorH := ratTrunc |p2.2 - p1.2|
  let scissorX := max 0 (min scissorX s.currentRenderTargetWidth)
  let scissorY := max 0 (min scissorY s.currentRenderTargetHeight)
  let scissorW := min scissorW (s.currentRenderTargetWidth - scissorX)
  let scissorH := min scissorH (s.currentRenderTargetHeight - scissorY)
  let r : ScissorRect := ⟨scissorX, scissorY, scissorW, scissorH⟩
  { s with scissorStack := s.scissorStack ++ [r], activeScissor := r }

/-- OpenGLRenderer::popScissorRect (OpenGLRenderer.cpp lines 776-788): drop
the top entry if any; then re-apply the new top, or the full viewport when
the stack is empty. -/
def popScissorRect (s : OGLState) : OGLState :=
  let st := if s.scissorStack.isEmpty then s.scissorStack else s.scissorStack.dropLast
  match st.getLast? with
  | some r => { s with scissorStack := st, activeScissor := r }
  | none =>
    { s with scissorStack := st,
             activeScissor := ⟨0, 0, s.currentRenderTargetWidth,
                               s.currentRenderTargetHeight⟩ }

/-! ## Concrete instances used by the witnesses -/

/-- Concrete renderer state whose texture cache already holds Image id 5. -/
def texState : OGLState :=
  { initialized := true, newTexturesCreatedThisFrame := false,
    textureCache := [(5, 7)], renderTargetCache := [], scissorStack := [],
    currentRenderTargetWidth := 800, currentRenderTargetHeight := 600,
    activeScissor := ⟨0, 0, 800, 600⟩, nextTexName := 8 }

/-- The filesystem oracle on which every open fails. -/
def fsNone : String → Option (List Nat) := fun _ => none

/-- Concrete initialized renderer state with a stale scissor stack, as left
behind by a previous frame. -/
def staleState : OGLState :=
  { initialized := true, newTexturesCreatedThisFrame := true,
    textureCache := [], renderTargetCache := [], scissorStack := [⟨1, 2, 3, 4⟩],
    currentRenderTargetWidth := 0, currentRenderTargetHeight := 0,
    activeScissor := ⟨0, 0, 0, 0⟩, nextTexName := 1 }

/-- The identity matrix as a GL float buffer. -/
def glMatId : GLMat := ⟨1, 0, 0, 0, 0, 1, 0, 0, 0, 0, 1, 0, 0, 0, 0, 1⟩

/-- Concrete fresh visible frame of size 200x150 with no render target yet. -/
def frameA : Frame3DNode :=
  { children := [], visible := true, renderTargetWidth := 200,
    renderTargetHeight := 150, renderTargetTexture := 0 }

/-- The empty Object2D world: every node detached, every children list empty. -/
def w0 : Obj2DWorld := ⟨fun _ => none, fun _ => []⟩

/-- An Object2D world in which node 2 is the only child of node 1. -/
def w1 : Obj2DWorld :=
  ⟨fun n => if n = 2 then some 1 else none, fun n => if n = 1 then [2] else []⟩

/-! ## Theorems -/

/-- C1: OpenGLRenderer::endFrame writes no renderer member at all — after any
number of completed endFrame calls every member equals its value before, so
the backend maintains no total frame counter and getFrameCount (declared pure
virtual in Renderer.h and never overridden by OpenGLRenderer) cannot return
the number of completed endFrame calls. -/
theorem C1_endFrame_maintains_no_counter (s : OGLState) :
    (endFrame s).1 = s ∧ ∀ n : Nat, (fun t => (endFrame t).1)^[n] s = s := by
  refine ⟨rfl, ?_⟩
  intro n
  induction n with
  | zero => rfl
  | succ k ih =>
    rw [Function.iterate_succ_apply]
    exact ih

/-- C3: getOrCreateTexture is idempotent — a second call with the same Image
identity returns the same cached name and leaves the whole renderer state
(texture cache and new-texture flag included) unchanged, and any cache hit
leaves the state unchanged, so only a cache miss raises the flag. -/
theorem C3_getOrCreateTexture_idempotent (s : OGLState) (i : Nat) :
    (getOrCreateTexture (getOrCreateTexture s i).2 i).1 = (getOrCreateTexture s i).1 ∧
    (getOrCreateTexture (getOrCreateTexture s i).2 i).2 = (getOrCreateTexture s i).2 ∧
    ∀ t, s.textureCache.lookup i = some t → getOrCreateTexture s i = (t, s) := by
  refine ⟨?_, ?_, ?_⟩
  · cases hl : s.textureCache.lookup i with
    | some t => simp [getOrCreateTexture, hl]
    | none => simp [getOrCreateTexture, hl, List.lookup]
  · cases hl : s.textureCache.lookup i with
    | some t => simp [getOrCreateTexture, hl]
    | none => simp [getOrCreateTexture, hl, List.lookup]
  · intro t ht
    simp [getOrCreateTexture, ht]

/-- Witness for C3 at a concrete state with a cached entry. -/
theorem C3_getOrCreateTexture_idempotent_witness :
    texState.textureCache.lookup 5 = some 7 ∧
    (getOrCreateTexture (getOrCreateTexture texState 5).2 5).1
      = (getOrCreateTexture texState 5).1 ∧
    (getOrCreateTexture (getOrCreateTexture texState 5).2 5).2
      = (getOrCreateTexture texState 5).2 ∧
    getOrCreateTexture texState 5 = (7, texState) :=
  ⟨rfl, (C3_getOrCreateTexture_idempotent texState 5).1,
    (C3_getOrCreateTexture_idempotent texState 5).2.1,
    (C3_getOrCreateTexture_idempotent texState 5).2.2 7 rfl⟩

/-- C7: Camera::getProjectionMatrix writes f/aspect, f, (near+far)/(near-far),
2·near·far/(near-far) and -1 at cells 0, 5, 10, 14, 11 of the column-major
buffer, every other cell 0, where f = 1/tan(fov/2); and for fov = π/2,
aspect = 1, near = 0.1, far = 100 the (0,0) cell equals 1.0 within 1e-5. -/
theorem C7_projection_matrix_entries (c : CameraPersp ℝ) :
    ((getProjectionMatrix Real.tan c).e0 = (1 / Real.tan (c.fov / 2)) / c.aspect) ∧
    ((getProjectionMatrix Real.tan c).e5 = 1 / Real.tan (c.fov / 2)) ∧
    ((getProjectionMatrix Real.tan c).e10 = (c.near + c.far) / (c.near - c.far)) ∧
    ((getProjectionMatrix Real.tan c).e14 = 2 * c.near * c.far / (c.near - c.far)) ∧
    ((getProjectionMatrix Real.tan c).e11 = -1) ∧
    ((getProjectionMatrix Real.tan c).e1 = 0 ∧ (getProjectionMatrix Real.tan c).e2 = 0 ∧
     (getProjectionMatrix Real.tan c).e3 = 0 ∧ (getProjectionMatrix Real.tan c).e4 = 0 ∧
     (getProjectionMatrix Real.tan c).e6 = 0 ∧ (getProjectionMatrix Real.tan c).e7 = 0 ∧
     (getProjectionMatrix Real.tan c).e8 = 0 ∧ (getProjectionMatrix Real.tan c).e9 = 0 ∧
     (getProjectionMatrix Real.tan c).e12 = 0 ∧ (getProjectionMatrix Real.tan c).e13 = 0 ∧
     (getProjectionMatrix Real.tan c).e15 = 0) ∧
    |(getProjectionMatrix Real.tan
        { fov := Real.pi / 2, aspect := 1, near := 1 / 10, far := 100 }).e0 - 1|
      ≤ 1 / 100000 := by
  refine ⟨rfl, rfl, ?_, ?_, rfl,
    ⟨rfl, rfl, rfl, rfl, rfl, rfl, rfl, rfl, rfl, rfl, rfl⟩, ?_⟩
  · simp [getProjectionMatrix, div_eq_mul_inv]
  · simp [getProjectionMatrix, div_eq_mul_inv]
  · have h4 : (Real.pi / 2) / 2 = Real.pi / 4 := by ring
    simp [getProjectionMatrix, h4, Real.tan_pi_div_four]

/-- C8: Image::loadFromData rejects a null pointer or any non-positive
dimension, returning false and leaving the Image entirely unchanged. -/
theorem C8_loadFromData_rejects_invalid (img : Image) (d : Option (List Nat))
    (w h c : Int) (hbad : d = none ∨ w ≤ 0 ∨ h ≤ 0 ∨ c ≤ 0) :
    loadFromData img d w h c = (false, img) := by
  cases d with
  | none => rfl
  | some bytes =>
    rcases hbad with h1 | h1 | h1 | h1
    · exact absurd h1 (by simp)
    · simp [loadFromData, h1]
    · simp [loadFromData, h1]
    · simp [loadFromData, h1]

/-- Witness for C8: the spec scenario loadFromData(null, 10, 10, 4) on a
fresh Image fails and the image stays not loaded. -/
theorem C8_loadFromData_rejects_invalid_witness :
    ((none : Option (List Nat)) = none ∨ (10 : Int) ≤ 0 ∨ (10 : Int) ≤ 0 ∨ (4 : Int) ≤ 0) ∧
    loadFromData freshImage none 10 10 4 = (false, freshImage) ∧
    isLoaded freshImage = false :=
  ⟨Or.inl rfl,
    C8_loadFromData_rejects_invalid freshImage none 10 10 4 (Or.inl rfl), rfl⟩

/-- C9: Frame3D::addChild and SceneRoot::addFrame3D append any non-null
argument unconditionally — adding the same child twice leaves it occurring
twice — and null arguments are no-ops; no parent pointer exists in either
container to update or detach. -/
theorem C9_frame3D_sceneRoot_unconditional_append (f : Frame3DNode) (r : List Nat)
    (c g : Nat) :
    ((frame3DAddChild (frame3DAddChild f (some c)) (some c)).children.count c
        = f.children.count c + 2) ∧
    ((sceneRootAddFrame3D (sceneRootAddFrame3D r (some g)) (some g)).count g
        = r.count g + 2) ∧
    frame3DAddChild f none = f ∧
    sceneRootAddFrame3D r none = r := by
  refine ⟨?_, ?_, rfl, rfl⟩
  · simp [frame3DAddChild, List.count_append]
  · simp [sceneRootAddFrame3D, List.count_append]

/-- C10: whenever Image::loadFromFile returns false, the Image's pixel
buffer, dimensions and channel count are unchanged (so isLoaded is
unchanged), but the stored path is overwritten with the argument and the
stored format with the format detected from its extension. -/
theorem C10_loadFromFile_failure_effect (img : Image) (fs : String → Option (List Nat))
    (p : String) (hfail : (loadFromFile img fs p).1 = false) :
    (loadFromFile img fs p).2 = { img with filepath := p, format := detectFormat p } ∧
    isLoaded (loadFromFile img fs p).2 = isLoaded img := by
  have h1 : (loadFromFile img fs p).2
      = { img with filepath := p, format := detectFormat p } := by
    unfold loadFromFile at hfail ⊢
    by_cases hf : detectFormat p = ImageFormat.Unknown
    · simp [hf]
    · simp [hf] at hfail ⊢
      cases hfs : fs p with
      | none => simp [hfs]
      | some bytes => simp [hfs] at hfail
  refine ⟨h1, ?_⟩
  rw [h1]
  simp [isLoaded]

/-- Witness for C10: loading a well-named but unopenable png file fails and
overwrites exactly the path and format of a fresh Image. -/
theorem C10_loadFromFile_failure_effect_witness :
    (loadFromFile freshImage fsNone "missing.png").1 = false ∧
    (loadFromFile freshImage fsNone "missing.png").2
      = { freshImage with filepath := "missing.png", format := detectFormat "missing.png" } ∧
    isLoaded (loadFromFile freshImage fsNone "missing.png").2 = isLoaded freshImage :=
  ⟨by decide,
    (C10_loadFromFile_failure_effect freshImage fsNone "missing.png" (by decide)).1,
    (C10_loadFromFile_failure_effect freshImage fsNone "missing.png" (by decide)).2⟩

/-- C2: in the frame-begun state with render-target size (W,H), pushing a
scissor region R1 and then R2 and popping once makes the rectangle pushed for
R1 the active scissor again, bit-for-bit; a second pop empties the stack and
makes the full-viewport rectangle (0,0,W,H) active. -/
theorem C2_scissor_stack_restore (s : OGLState) (fbW fbH : Int)
    (hinit : s.initialized = true)
    (x1 y1 w1 h1 : ℚ) (m1 : GLMat) (x2 y2 w2 h2 : ℚ) (m2 : GLMat) :
    (beginFrame s fbW fbH).1 = true ∧
    (let s0 := (beginFrame s fbW fbH).2
     let s1 := pushScissorRect s0 x1 y1 w1 h1 m1
     let s2 := pushScissorRect s1 x2 y2 w2 h2 m2
     let s3 := popScissorRect s2
     let s4 := popScissorRect s3
     s1.scissorStack = [s1.activeScissor] ∧
     s3.activeScissor = s1.activeScissor ∧
     s3.scissorStack = s1.scissorStack ∧
     s4.scissorStack = [] ∧
     s4.activeScissor = ⟨0, 0, fbW, fbH⟩) := by
  constructor
  · simp [beginFrame, hinit]
  · simp only [beginFrame, hinit, Bool.true_eq_false, if_false,
      pushScissorRect, popScissorRect]
    simp [List.dropLast, List.getLast?]

/-- Witness for C2 at a concrete initialized state and concrete regions. -/
theorem C2_scissor_stack_restore_witness :
    staleState.initialized = true ∧
    ((beginFrame staleState 800 600).1 = true ∧
     (let s0 := (beginFrame staleState 800 600).2
      let s1 := pushScissorRect s0 10 20 100 50 glMatId
      let s2 := pushScissorRect s1 30 40 25 25 glMatId
      let s3 := popScissorRect s2
      let s4 := popScissorRect s3
      s1.scissorStack = [s1.activeScissor] ∧
      s3.activeScissor = s1.activeScissor ∧
      s3.scissorStack = s1.scissorStack ∧
      s4.scissorStack = [] ∧
      s4.activeScissor = ⟨0, 0, 800, 600⟩)) :=
  ⟨rfl, C2_scissor_stack_restore staleState 800 600 rfl 10 20 100 50 glMatId
    30 40 25 25 glMatId⟩

/-- C4: a visible Frame3D is always rendered through the off-screen path —
with a complete framebuffer its 2D children are rendered into its dedicated
render-target texture and that texture is composited as a textured quad of
the frame's render-target size — and the direct immediate-mode branch of
renderFrame3D is never taken.  The hypotheses say GL texture names are
positive: the fresh-name counter is positive and a cached render target is
the positive name stored in the frame's pointer when it was created. -/
theorem C4_frame3D_always_offscreen (fb : Bool) (s : OGLState) (fid : Nat)
    (f : Frame3DNode) (hv : f.visible = true)
    (hcache : ∀ t, s.renderTargetCache.lookup fid = some t →
      f.renderTargetTexture = t ∧ 0 < t)
    (hfresh : 0 < s.nextTexName) :
    RenderEvent.directChildren ∉ (renderFrame3D fb s fid f).2.2 ∧
    (fb = true → ∃ t, 0 < t ∧
      (renderFrame3D fb s fid f).2.2
        = [RenderEvent.childrenToTexture t,
           RenderEvent.texturedQuad t f.renderTargetWidth f.renderTargetHeight]) := by
  cases hl : s.renderTargetCache.lookup fid with
  | some t =>
    obtain ⟨hft, htpos⟩ := hcache t hl
    have ht0 : ¬(t = 0) := by omega
    cases fb with
    | false =>
      refine ⟨?_, by simp⟩
      simp [renderFrame3D, hv, isOffscreenRenderingEnabled, renderFrame3DToTexture,
            getOrCreateRenderTarget, hl, ht0, hft]
    | true =>
      refine ⟨?_, fun _ => ⟨t, htpos, ?_⟩⟩ <;>
        simp [renderFrame3D, hv, isOffscreenRenderingEnabled, renderFrame3DToTexture,
              getOrCreateRenderTarget, hl, ht0, hft]
  | none =>
    have ht0 : ¬(s.nextTexName = 0) := by omega
    cases fb with
    | false =>
      refine ⟨?_, by simp⟩
      simp [renderFrame3D, hv, isOffscreenRenderingEnabled, renderFrame3DToTexture,
            getOrCreateRenderTarget, hl, ht0]
    | true =>
      refine ⟨?_, fun _ => ⟨s.nextTexName, by omega, ?_⟩⟩ <;>
        simp [renderFrame3D, hv, isOffscreenRenderingEnabled, renderFrame3DToTexture,
              getOrCreateRenderTarget, hl, ht0]

/-- Witness for C4: a fresh visible 200x150 frame rendered by a fresh
renderer with a complete framebuffer. -/
theorem C4_frame3D_always_offscreen_witness :
    frameA.visible = true ∧
    (∀ t, staleState.renderTargetCache.lookup 7 = some t →
      frameA.renderTargetTexture = t ∧ 0 < t) ∧
    0 < staleState.nextTexName ∧
    (RenderEvent.directChildren ∉ (renderFrame3D true staleState 7 frameA).2.2 ∧
     (true = true → ∃ t, 0 < t ∧
       (renderFrame3D true staleState 7 frameA).2.2
         = [RenderEvent.childrenToTexture t,
            RenderEvent.texturedQuad t frameA.renderTargetWidth
              frameA.renderTargetHeight])) :=
  ⟨rfl, fun t ht => by simp [staleState] at ht, Nat.one_pos,
    C4_frame3D_always_offscreen true staleState 7 frameA rfl
      (fun t ht => by simp [staleState] at ht) Nat.one_pos⟩

/-- C5: in a well-formed tree, after A.addChild(B) the node B's parent is A
and B occurs exactly once in A's children; removing a present child clears
its parent and removes it from the list; addChild is a no-op on null and on
an existing child of A. -/
theorem C5_addChild_removeChild_contract (w : Obj2DWorld) (a b : Nat)
    (hw : WellFormed w) :
    (addChild w a (some b)).parent b = some a ∧
    ((addChild w a (some b)).children a).count b = 1 ∧
    (b ∈ w.children a →
      (removeChild w a (some b)).parent b = none ∧
      b ∉ (removeChild w a (some b)).children a) ∧
    addChild w a none = w ∧
    (w.parent b = some a → addChild w a (some b) = w) := by
  obtain ⟨hiff, hnd⟩ := hw
  refine ⟨?_, ?_, ?_, rfl, ?_⟩
  · by_cases hpb : w.parent b = some a
    · simp [addChild, hpb]
    · simp [addChild, hpb]
  · by_cases hpb : w.parent b = some a
    · simp only [addChild, hpb, if_true]
      exact List.count_eq_one_of_mem (hnd a) ((hiff a b).mpr hpb)
    · have hnotmem : b ∉ w.children a := fun hm => hpb ((hiff a b).mp hm)
      cases hp : w.parent b with
      | none =>
        simp [addChild, hpb, hp, List.count_append,
          List.count_eq_zero.mpr hnotmem]
      | some p =>
        have hpa : ¬(p = a) := by
          intro he
          exact hpb (he ▸ hp)
        have hap : ¬(a = p) := fun he => hpa he.symm
        have hmem : b ∈ w.children p := (hiff p b).mpr hp
        simp [addChild, hpb, hp, removeChild, hmem, hpa, hap, List.count_append,
          List.count_eq_zero.mpr hnotmem]
  · intro hmem
    constructor
    · simp [removeChild, hmem]
    · have hrm : (removeChild w a (some b)).children a = (w.children a).erase b := by
        simp [removeChild, hmem]
      rw [hrm]
      intro hin
      exact (((hnd a).mem_erase_iff.mp hin).1) rfl
  · intro hpb
    simp [addChild, hpb]

/-- Witness for C5 in the world where node 2 is already the only child of
node 1: the addChild is the documented no-op, the count stays one, and the
removal clears the parent pointer. -/
theorem C5_addChild_removeChild_contract_witness :
    WellFormed w1 ∧
    ((addChild w1 1 (some 2)).parent 2 = some 1 ∧
     ((addChild w1 1 (some 2)).children 1).count 2 = 1 ∧
     (2 ∈ w1.children 1 →
       (removeChild w1 1 (some 2)).parent 2 = none ∧
       2 ∉ (removeChild w1 1 (some 2)).children 1) ∧
     addChild w1 1 none = w1 ∧
     (w1.parent 2 = some 1 → addChild w1 1 (some 2) = w1)) := by
  have hwf : WellFormed w1 := by
    constructor
    · intro p c
      by_cases hp : p = 1 <;> by_cases hc : c = 2 <;>
        simp [w1, hp, hc, eq_comm]
    · intro p
      by_cases hp : p = 1 <;> simp [w1, hp]
  exact ⟨hwf, C5_addChild_removeChild_contract w1 1 2 hwf⟩

/-- C6: re-parenting a node B from parent A to a distinct node C first
removes B from A's children and only then appends it to C's: addChild
factors through the intermediate detach state, in which B belongs to neither
children list, and afterwards B's parent is C, B is gone from A's children
and occurs exactly once in C's. -/
theorem C6_reparent_detach_before_append (w : Obj2DWorld) (a b c : Nat)
    (hw : WellFormed w) (hpb : w.parent b = some a)
    (hab : a ≠ b) (hac : a ≠ c) (hbc : b ≠ c) :
    b ∈ w.children a ∧ b ∉ w.children c ∧
    (b ∉ (removeChild w a (some b)).children a ∧
     b ∉ (removeChild w a (some b)).children c) ∧
    addChild w c (some b)
      = { parent := fun n => if n = b then some c
                             else (removeChild w a (some b)).parent n,
          children := fun n => if n = c then (removeChild w a (some b)).children n ++ [b]
                               else (removeChild w a (some b)).children n } ∧
    (addChild w c (some b)).parent b = some c ∧
    b ∉ (addChild w c (some b)).children a ∧
    ((addChild w c (some b)).children c).count b = 1 := by
  obtain ⟨hiff, hnd⟩ := hw
  have hmema : b ∈ w.children a := (hiff a b).mpr hpb
  have hpc : ¬(w.parent b = some c) := by
    rw [hpb]
    simp [hac]
  have hmemc : b ∉ w.children c := fun hm => hpc ((hiff c b).mp hm)
  have hca : ¬(c = a) := fun he => hac he.symm
  have hrm : (removeChild w a (some b)).children a = (w.children a).erase b := by
    simp [removeChild, hmema]
  have hrmc : (removeChild w a (some b)).children c = w.children c := by
    simp [removeChild, hmema, hca]
  have hint : b ∉ (removeChild w a (some b)).children a := by
    rw [hrm]
    intro hin
    exact (((hnd a).mem_erase_iff.mp hin).1) rfl
  have hdec : addChild w c (some b)
      = { parent := fun n => if n = b then some c
                             else (removeChild w a (some b)).parent n,
          children := fun n => if n = c then (removeChild w a (some b)).children n ++ [b]
                               else (removeChild w a (some b)).children n } := by
    simp [addChild, hpb, hac]
  refine ⟨hmema, hmemc, ⟨hint, by rw [hrmc]; exact hmemc⟩, hdec, ?_, ?_, ?_⟩
  · rw [hdec]
    simp
  · rw [hdec]
    simpa [hac] using hint
  · rw [hdec]
    simp [hrmc, List.count_append, List.count_eq_zero.mpr hmemc]

/-- Witness for C6 re-parenting node 2 from node 1 to node 3. -/
theorem C6_reparent_detach_before_append_witness :
    (WellFormed w1 ∧ w1.parent 2 = some 1) ∧
    (2 ∈ w1.children 1 ∧ 2 ∉ w1.children 3 ∧
     (2 ∉ (removeChild w1 1 (some 2)).children 1 ∧
      2 ∉ (removeChild w1 1 (some 2)).children 3) ∧
     addChild w1 3 (some 2)
       = { parent := fun n => if n = 2 then some 3
                              else (removeChild w1 1 (some 2)).parent n,
           children := fun n => if n = 3 then (removeChild w1 1 (some 2)).children n ++ [2]
                                else (removeChild w1 1 (some 2)).children n } ∧
     (addChild w1 3 (some 2)).parent 2 = some 3 ∧
     2 ∉ (addChild w1 3 (some 2)).children 1 ∧
     ((addChild w1 3 (some 2)).children 3).count 2 = 1) := by
  have hwf : WellFormed w1 := by
    constructor
    · intro p c
      by_cases hp : p = 1 <;> by_cases hc : c = 2 <;>
        simp [w1, hp, hc, eq_comm]
    · intro p
      by_cases hp : p = 1 <;> simp [w1, hp]
  exact ⟨⟨hwf, rfl⟩,
    C6_reparent_detach_before_append w1 1 2 3 hwf rfl
      (by decide) (by decide) (by decide)⟩

end CyberUI
